import Mathlib

/-!
Verification of the `pyramids` conversion layer (`src/pyramids/convert.py`).

The Python module `Convert` is shallowly embedded below.  Pure control flow is
translated function-by-function; the effectful GDAL / filesystem layer is made
explicit: every call takes an environment record describing what the external
files contain (the parsed ASCII header, the reference raster's dimensions, the
EPSG ids of the opened raster and vector, ...) and returns, next to its result,
the ordered list of I/O events it performed, so that statements of the form
"the error is reported before any I/O" and "no output file is written" become
statements about that event trace.  Numeric cell values are modelled as `ℚ`
(the claims under study never depend on floating-point rounding).
-/

namespace Pyramids

/-- Python string slicing `s[-n:]`: the last `n` characters of `s`
(the whole string when `s` is shorter than `n`). -/
def strTakeRight (s : String) (n : Nat) : String :=
  ⟨s.data.drop (s.data.length - n)⟩

/-- Python `s.endswith(ext)` for a concrete extension `ext`, which for the
extensions used in `convert.py` coincides with `s[-len(ext):] == ext`
(this is also literally the check `ascii_file[-4:] == ".asc"` of the source). -/
def hasExt (s ext : String) : Bool :=
  strTakeRight s ext.length = ext

/-- The fixed pixel-datatype enumeration used by `convert.py`
(GDAL datatypes reachable from the `pixel_type` codes). -/
inductive GdalDType where
  | float32
  | float64
  | uint16
  | uint32
  | int16
  | int32
deriving DecidableEq, Repr

/-- The `if pixel_type == 1: ... elif pixel_type == 6:` chain of
`asciiToRaster` (src/pyramids/convert.py lines 161-183): the map from the
declared integer code to the GDAL datatype; `none` when no branch matches,
in which case the source leaves the output handle `dst` unassigned. -/
def pixelTypeToDType (pixel_type : Int) : Option GdalDType :=
  if pixel_type = 1 then some GdalDType.float32
  else if pixel_type = 2 then some GdalDType.float64
  else if pixel_type = 3 then some GdalDType.uint16
  else if pixel_type = 4 then some GdalDType.uint32
  else if pixel_type = 5 then some GdalDType.int16
  else if pixel_type = 6 then some GdalDType.int32
  else none

/-- Python exception kinds raised by the embedded code paths. -/
inductive PyError where
  | typeError (msg : String)
  | valueError (msg : String)
  | assertionError (msg : String)
  | unboundLocalError (name : String)
deriving DecidableEq, Repr

/-- An I/O action performed by `asciiToRaster` (and the folder variant),
in the order the source performs them. -/
inductive IOEvent where
  | readASCII (file : String)
  | openRaster (file : String)
  | writeRasterLike (path : String) (rows cols : Nat)
  | createRaster (path : String) (cols rows : Nat) (dtype : GdalDType)
deriving DecidableEq, Repr

/-- Whether an event writes an output file. -/
def IOEvent.isWrite : IOEvent → Bool
  | IOEvent.writeRasterLike _ _ _ => true
  | IOEvent.createRaster _ _ _ _ => true
  | _ => false

/-- The parsed header of an ASCII grid file, in the component order returned
by `Raster.readASCII`: rows, columns, lower-left X, lower-left Y, cell size,
no-data value. -/
structure ASCIIDetails where
  rows : Nat
  cols : Nat
  xll : ℚ
  yll : ℚ
  cellsize : ℚ
  nodata : ℚ
deriving DecidableEq, Repr

/-- The six-entry geotransform tuple `(originX, pixelWidth, rowRot, originY,
colRot, pixelHeight)` in the index order of the source tuple `dst_gt`. -/
structure GeoTransform where
  originX : ℚ
  pixelWidth : ℚ
  rowRot : ℚ
  originY : ℚ
  colRot : ℚ
  pixelHeight : ℚ
deriving DecidableEq, Repr

/-- The raster created by the EPSG branch of `asciiToRaster`. -/
structure CreatedRaster where
  path : String
  cols : Nat
  rows : Nat
  dtype : GdalDType
  gt : GeoTransform
  epsg : Int
deriving DecidableEq, Repr

/-- Result of a successful `asciiToRaster` call: either an output written by
`Raster.rasterLike` from the reference raster, or a raster created from an
EPSG id. -/
inductive AsciiResult where
  | fromRef (path : String) (rows cols : Nat) (dtype : GdalDType)
  | fromEpsg (c : CreatedRaster)
deriving DecidableEq, Repr

/-- What the external files contain, as seen by one `asciiToRaster` call:
the parsed ASCII grid (what `Raster.readASCII` returns) and the dimensions of
the reference raster (what `gdal.Open(raster_file)` reports). -/
structure AsciiEnv where
  ascii : ASCIIDetails
  refRows : Nat
  refCols : Nat
deriving Repr

/-- The assertion message of `asciiToRaster` when neither a reference raster
nor an EPSG id is supplied (whitespace of the Python triple-quoted message
abridged). -/
def neitherMsg : String :=
  "you have to enter one of the following inputs - raster_file - epsg"

/-- The dimension-mismatch assertion message of `asciiToRaster`. -/
def dimMismatchMsg : String :=
  " Data in both ASCII file and Raster file should have the same number of row and columns"

/-- The extension assertion message of `asciiToRaster`. -/
def extMsg : String :=
  "please add the extension at the end of the path input"

/-- Shallow embedding of `Convert.asciiToRaster` (src/pyramids/convert.py
lines 28-192).  The Python `isinstance` checks always pass here because the
arguments are typed; the remaining control flow is translated in source
order: extension check, neither-input assertion, `Raster.readASCII`, then
either the reference-raster branch (extension check, `gdal.Open`, dimension
assertion, `Raster.rasterLike`) or the EPSG branch (geotransform computation
and the per-pixel-type `Create` chain; an unmatched `pixel_type` leaves `dst`
unassigned so the subsequent `dst.SetGeoTransform` raises an unbound-local
error).  `Raster.readASCII` and `Raster.rasterLike` are not under `src/`;
`readASCII` is modelled as returning the environment's parsed header, and
`rasterLike` is modelled from the spec: it writes an output copying the
reference raster's spatial grid, so its row/column counts are the
reference's, with the datatype selected by the declared pixel-type code. -/
def asciiToRaster (env : AsciiEnv) (ascii_file save_path : String)
    (pixel_type : Int) (raster_file : Option String) (epsg : Option Int) :
    List IOEvent × Except PyError AsciiResult :=
  if ¬ (hasExt ascii_file (".asc") = true) then
    ([], Except.error (PyError.valueError extMsg))
  else if raster_file = none ∧ epsg = none then
    ([], Except.error (PyError.assertionError neitherMsg))
  else
    let ev0 := [IOEvent.readASCII ascii_file]
    let d := env.ascii
    match raster_file with
    | some rf =>
      if ¬ (hasExt rf (".tif") = true) then
        (ev0, Except.error (PyError.assertionError extMsg))
      else
        let ev1 := ev0 ++ [IOEvent.openRaster rf]
        if d.rows = env.refRows ∧ d.cols = env.refCols then
          match pixelTypeToDType pixel_type with
          | some dt =>
            (ev1 ++ [IOEvent.writeRasterLike save_path env.refRows env.refCols],
             Except.ok (AsciiResult.fromRef save_path env.refRows env.refCols dt))
          | none =>
            (ev1, Except.error (PyError.valueError ("unsupported pixel type")))
        else
          (ev1, Except.error (PyError.assertionError dimMismatchMsg))
    | none =>
      match epsg with
      | some e =>
        let yUpper := d.yll + (d.rows : ℚ) * d.cellsize
        let gt : GeoTransform :=
          ⟨d.xll, d.cellsize, 0, yUpper, 0, (-1 : ℚ) * d.cellsize⟩
        match pixelTypeToDType pixel_type with
        | some dt =>
          (ev0 ++ [IOEvent.createRaster save_path d.cols d.rows dt],
           Except.ok (AsciiResult.fromEpsg ⟨save_path, d.cols, d.rows, dt, gt, e⟩))
        | none =>
          (ev0, Except.error (PyError.unboundLocalError ("dst")))
      | none =>
        -- unreachable: the neither-input assertion above already fired
        (ev0, Except.error (PyError.assertionError neitherMsg))

/-- Python `os.path.basename` for the forward-slash paths used here:
the part after the last path separator. -/
def basename (p : String) : String :=
  (p.splitOn ("/")).getLastD p

/-- First component of Python `os.path.splitext`: the name with its last
dot-extension removed (a name whose only dot is the leading one keeps it). -/
def splitextFst (p : String) : String :=
  let parts := p.splitOn (".")
  match parts with
  | [] => p
  | [_] => p
  | _ =>
    if String.intercalate (".") parts.dropLast = "" then p
    else String.intercalate (".") parts.dropLast

/-- Python str() of an optional string: `None` prints as the four letters
None inside an f-string. -/
def pyStr : Option String → String
  | none => "None"
  | some s => s

/-- A timestamp as rendered by the strftime calls of `nctoTiff`. -/
structure PyDateTime where
  y : Nat
  mo : Nat
  d : Nat
  h : Nat
  mi : Nat
  s : Nat
deriving DecidableEq, Repr

/-- Python strftime zero-padding to two digits. -/
def pad2 (n : Nat) : String :=
  if n < 10 then "0" ++ toString n else toString n

/-- Python strftime year padding to four digits. -/
def pad4 (n : Nat) : String :=
  if n < 10 then "000" ++ toString n
  else if n < 100 then "00" ++ toString n
  else if n < 1000 then "0" ++ toString n
  else toString n

/-- The timestamp suffix written by `nctoTiff` for one time step:
strftime Y.m.d.H.M.S with dots between the fields. -/
def timestampName (t : PyDateTime) : String :=
  pad4 t.y ++ "." ++ pad2 t.mo ++ "." ++ pad2 t.d ++ "." ++ pad2 t.h ++ "."
    ++ pad2 t.mi ++ "." ++ pad2 t.s

/-- Shallow embedding of the output-naming behaviour of `Convert.nctoTiff`
(src/pyramids/convert.py lines 270-409): the list of output file names the
call produces, one per time step, in loop order.  The environment supplies
the per-timestep time values that `NC.ncDetails` (not under src/) reports;
`time_len` is their count.  Faithful to the source: the filename-derived
default is computed only when `prefix is None and time_len > 1`; otherwise
`fname_prefix = prefix` even when that is `None`, and the f-string renders
`None` literally.  `os.path.join` is modelled as separator concatenation for
the relative paths used here. -/
def nctoTiff (input_nc save_to sep : String) (pfx : Option String)
    (times : List PyDateTime) : List String :=
  let time_len := times.length
  let fnamePfx : Option String :=
    if pfx = none ∧ 1 < time_len then
      some (splitextFst (basename input_nc))
    else pfx
  let nameparts : Option String :=
    if pfx = none ∧ 1 < time_len then
      some ((splitextFst (basename input_nc)).splitOn sep).headI
    else pfx
  times.map (fun t =>
    if 1 < time_len then
      save_to ++ "/" ++ pyStr nameparts ++ "_" ++ timestampName t ++ ".tif"
    else
      save_to ++ "/" ++ pyStr fnamePfx ++ ".tif")

/-- What the external files report to one `rasterize` call: the EPSG ids of
the opened raster and vector (`Raster.getEPSG` / `Vector.getEPSG`, not under
src/, modelled as environment values). -/
structure RasterizeEnv where
  srcEpsg : Int
  dsEpsg : Int
deriving Repr

/-- An action performed by `rasterize`, in source order. -/
inductive RastEvent where
  | openRaster (path : String)
  | openVector (path : String)
  | createDriver (path : String)
  | burn (burnValues : Option (List Int)) (attr : Option String)
deriving DecidableEq, Repr

/-- The error message of `rasterize` on an EPSG mismatch, naming both ids
exactly as the source f-string does. -/
def epsgMismatchMsg (src_epsg ds_epsg : Int) : String :=
  "Raster and vector are not the same EPSG. " ++ toString src_epsg
    ++ " != " ++ toString ds_epsg

/-- Shallow embedding of `Convert.rasterize` (src/pyramids/convert.py lines
411-467): open the raster, open the vector, compare EPSG ids and raise a
ValueError naming both when they differ; only then create the output driver
and invoke the burn step, with constant burn value 1 when no vector field is
named and the field's values otherwise. -/
def rasterize (env : RasterizeEnv) (raster_path vector_path out_path : String)
    (vector_field : Option String) :
    List RastEvent × Except PyError Unit :=
  let ev0 := [RastEvent.openRaster raster_path, RastEvent.openVector vector_path]
  if ¬ (env.srcEpsg = env.dsEpsg) then
    (ev0, Except.error (PyError.valueError (epsgMismatchMsg env.srcEpsg env.dsEpsg)))
  else
    let burnValues : Option (List Int) :=
      match vector_field with
      | none => some [1]
      | some _ => none
    let attr : Option String := vector_field
    (ev0 ++ [RastEvent.createDriver out_path, RastEvent.burn burnValues attr],
     Except.ok ())

/-- Modelled from the spec: `pyramids.array.getPixels` is not under src/.
Per the spec's extraction description, it selects, for each band of the
(band-major, spatially flattened) array, the cells whose mask cell carries
the requested mask value; the default mask value is 1 (the all-ones mask of
the unmasked path selects everything). -/
def getPixels (arr : List (List ℚ)) (mask_arr : List ℚ) (mask_val : ℚ) :
    List (List ℚ) :=
  arr.map (fun band =>
    ((band.zip mask_arr).filter (fun p => decide (p.2 = mask_val))).map Prod.fst)

/-- Numpy transpose of a band-major selection whose bands all have the length
of the first band (which holds for every `getPixels` result, since each band
is filtered by the same mask): row i of the result collects entry i of every
band. -/
def transposeLists (l : List (List ℚ)) : List (List ℚ) :=
  (List.range (l.headI).length).map (fun i => l.map (fun band => band.getD i 0))

/-- One row of the pixel table.  `vals` are the cell values aligned with the
frame's column list; `burn` instruments the row with the burn value of the
feature it was extracted for (the number stored in its burn-value cell) so
that per-feature statements can be made after the column is dropped. -/
structure PixRow where
  vals : List ℚ
  burn : Nat
deriving DecidableEq, Repr

/-- A pandas DataFrame, modelled as its column-name list and its rows. -/
structure DataFrame where
  cols : List String
  rows : List PixRow
deriving DecidableEq, Repr

/-- pandas concat of frames sharing the column list `cols`. -/
def concatDfs (cols : List String) (dfs : List DataFrame) : DataFrame :=
  { cols := cols, rows := dfs.flatMap DataFrame.rows }

/-- pandas left merge on the burn-value key against the vector attribute
table: feature number v (1-based) is row v-1 of the attribute table, and its
attribute values are appended to each matching pixel row; the result's
columns are the left columns followed by the right columns minus the key. -/
def mergeLeft (df : DataFrame) (gdfCols : List String)
    (attrRows : List (List ℚ)) : DataFrame :=
  { cols := df.cols ++ gdfCols.erase ("burn_value"),
    rows := df.rows.map (fun r =>
      { r with vals := r.vals ++ attrRows.getD (r.burn - 1) [] }) }

/-- pandas `DataFrame.drop(columns=names, errors="ignore")`: every column
whose label is in `names` is removed, together with the corresponding entry
of each row. -/
def dropCols (df : DataFrame) (names : List String) : DataFrame :=
  { cols := df.cols.filter (fun c => !(names.contains c)),
    rows := df.rows.map (fun r =>
      let kept := (r.vals.zip df.cols).filter (fun p => !(names.contains p.2))
      { r with vals := kept.map Prod.fst }) }

/-- The burn values `gdf["burn_value"] = list(range(1, len(gdf) + 1))`
assigned to the n mask features in `rasterToDataframe`. -/
def assignedBurnValues (n : Nat) : List Nat :=
  List.range' 1 n

/-- Filesystem outcome of a `rasterToDataframe` call with a vector mask:
whether the scoped temporary directory (holding the re-written vector and
the rasterized-vector file) has been removed when the call terminates. -/
structure FsOutcome where
  tempDirRemoved : Bool
deriving DecidableEq, Repr

/-- Shallow embedding of the masked path of `Convert.rasterToDataframe`
(src/pyramids/convert.py lines 517-617).  Inputs describe what the external
layers provide: the band names of the raster, the vector's attribute columns
and rows (as read by geopandas, geometry included), the burn raster the
rasterize call produces (read once, spatially flattened), and the tiles
`Raster.getTile` yields (each band-major and spatially flattened; `getTile`
is not under src/ and is modelled from the spec as yielding sub-blocks that
together cover the raster).  `tileError` injects an exception raised during
tile processing.  Faithful to the source, the `shutil.rmtree` cleanup is the
straight-line statement after the processing loops, with no try/finally
around them: an exception propagates before the cleanup is reached, so the
temporary directory is removed exactly on the normal path. -/
def rasterToDataframeMasked (band_names attrCols : List String)
    (attrRows : List (List ℚ)) (mask_arr : List ℚ)
    (tiles : List (List (List ℚ))) (tileError : Bool) :
    FsOutcome × Except String DataFrame :=
  -- tempfile.mkdtemp(): the temporary directory now exists
  let n := attrRows.length
  let burnVals := assignedBurnValues n
  let gdfCols := attrCols ++ ["burn_value"]
  if tileError then
    -- the exception propagates; shutil.rmtree is never reached
    ({ tempDirRemoved := false },
     Except.error ("exception raised during tile processing"))
  else
    let tile_dfs := tiles.map (fun arr =>
      let mask_dfs := burnVals.map (fun (v : Nat) =>
        let vq : ℚ := (v : ℚ)
        let flat := transposeLists (getPixels arr mask_arr vq)
        ({ cols := band_names ++ ["burn_value"],
           rows := flat.map (fun px => { vals := px ++ [vq], burn := v }) }
          : DataFrame))
      let mask_df := concatDfs (band_names ++ ["burn_value"]) mask_dfs
      mergeLeft mask_df gdfCols attrRows)
    let out_df :=
      concatDfs ((band_names ++ ["burn_value"]) ++ gdfCols.erase ("burn_value"))
        tile_dfs
    -- shutil.rmtree(temp_dir): cleanup on the normal path, then the drop
    ({ tempDirRemoved := true },
     Except.ok (dropCols out_df ["burn_value", "geometry"]))

/-- Shallow embedding of the unmasked path of `Convert.rasterToDataframe`
(src/pyramids/convert.py lines 594-608): per tile, an all-ones mask with the
tile's spatial shape is built (the 2D/3D `idx` branch of the source picks the
spatial dimensions; in the flattened model both give the cell count, taken
from the first band), `getPixels` with the default mask value 1 selects every
cell, and the transposed selection becomes a frame whose columns are the
band names; the tile frames are concatenated. -/
def rasterToDataframeNoMask (band_names : List String)
    (tiles : List (List (List ℚ))) : DataFrame :=
  let tile_dfs := tiles.map (fun arr =>
    let cells := (arr.headI).length
    let mask_arr := List.replicate cells (1 : ℚ)
    let pixels := transposeLists (getPixels arr mask_arr 1)
    ({ cols := band_names,
       rows := pixels.map (fun px => { vals := px, burn := 1 }) } : DataFrame))
  concatDfs band_names tile_dfs

/-- The folder as seen by one `asciiFoldertoRaster` call: whether the path
exists, the `os.listdir` result, and the parsed content of each listed ASCII
file (what `Raster.readASCII` would report for it). -/
structure FolderEnv where
  pathExists : Bool
  files : List String
  envOf : String → AsciiEnv

/-- The per-file loop of `asciiFoldertoRaster`: each file is converted with
`raster_file=None` and the caller's epsg; the first exception aborts the
loop and propagates. -/
def runFolderLoop (env : FolderEnv) (path save_path : String)
    (pixel_type : Int) (epsg : Option Int) :
    List String → Except PyError (List AsciiResult)
  | [] => Except.ok []
  | f :: rest =>
    let asciiFile := path ++ "/" ++ f
    let name := save_path ++ "/" ++ ((f.splitOn (".")).headI) ++ ".tif"
    match (asciiToRaster (env.envOf f) asciiFile name pixel_type none epsg).2 with
    | Except.error e => Except.error e
    | Except.ok r =>
      match runFolderLoop env path save_path pixel_type epsg rest with
      | Except.error e => Except.error e
      | Except.ok rs => Except.ok (r :: rs)

/-- Shallow embedding of `Convert.asciiFoldertoRaster` (src/pyramids/convert.py
lines 194-268): existence check, `os.listdir` (the `!= ""` emptiness check of
the source compares a list with a string and always passes), removal of the
first `desktop.ini` entry, the all-files-end-in-.asc assertion, then the
conversion loop — which always passes `raster_file=None` to `asciiToRaster`
regardless of the `Rraster_file` argument. -/
def asciiFoldertoRaster (env : FolderEnv) (path save_path : String)
    (pixel_type : Int) (_Rraster_file : Option String) (epsg : Option Int) :
    Except PyError (List AsciiResult) :=
  if ¬ (env.pathExists = true) then
    Except.error (PyError.assertionError ("the path you have provided does not exist"))
  else
    let files := env.files.erase ("desktop.ini")
    if ¬ (files.all (fun f => hasExt f (".asc"))) then
      Except.error (PyError.assertionError
        ("all files in the given folder should have .tif extension"))
    else
      runFolderLoop env path save_path pixel_type epsg files

/-! Helper lemmas about the string model. -/

theorem strTakeRight_append (a b : String) (n : Nat) (h : n ≤ b.data.length) :
    strTakeRight (a ++ b) n = strTakeRight b n := by
  unfold strTakeRight
  rw [String.data_append]
  have hlen : (a.data ++ b.data).length - n = a.data.length + (b.data.length - n) := by
    rw [List.length_append]
    omega
  rw [hlen, List.drop_append]

theorem hasExt_le_length (f ext : String) (h : hasExt f ext = true) :
    ext.data.length ≤ f.data.length := by
  by_contra hlt
  push_neg at hlt
  simp only [hasExt, decide_eq_true_eq] at h
  unfold strTakeRight at h
  have h0 : f.data.length - ext.length = 0 := by
    have : ext.length = ext.data.length := rfl
    omega
  rw [h0, List.drop_zero] at h
  have hdata : f.data = ext.data := congrArg String.data h
  rw [hdata] at hlt
  omega

theorem hasExt_append (a f ext : String) (h : hasExt f ext = true) :
    hasExt (a ++ f) ext = true := by
  have hle := hasExt_le_length f ext h
  simp only [hasExt, decide_eq_true_eq] at h ⊢
  have : ext.length ≤ f.data.length := hle
  rw [strTakeRight_append a f ext.length this]
  exact h

/-! Claim C1 and claim C7 concern the masked table-extraction path. -/

/-- Claim C1, counterexample.  The claim states that the temporary directory
and its artifacts are absent from the filesystem when
`Convert.rasterToDataframe` terminates on every exit path, including
termination by an exception raised during tile processing.  On the concrete
masked call below, an exception raised during tile processing terminates the
call while the temporary directory is still present (`tempDirRemoved =
false`): the source performs `shutil.rmtree` as a straight-line statement
after the processing loops, with no try/finally, so the exception propagates
before the cleanup is reached. -/
theorem tempdir_survives_tile_exception_cex :
    (rasterToDataframeMasked ["B1"] ["geometry"] [[0]] [0, 1] [[[10, 11]]]
        true).1.tempDirRemoved = false :=
  rfl

/-- Claim C1, amended: the temporary directory (holding the re-written
vector and the rasterized-vector file) is removed exactly when the masked
call completes normally; when an exception is raised during tile processing
the exception propagates before the cleanup statement and the temporary
directory remains on disk. -/
theorem tempdir_removed_iff_no_tile_exception
    (band_names attrCols : List String) (attrRows : List (List ℚ))
    (mask_arr : List ℚ) (tiles : List (List (List ℚ))) (tileError : Bool) :
    (rasterToDataframeMasked band_names attrCols attrRows mask_arr tiles
        tileError).1.tempDirRemoved = !tileError := by
  cases tileError <;> rfl

/-- Claim C2, counterexample.  The claim states that supplying both a
reference raster and an EPSG id to `Convert.asciiToRaster` is a contract
violation reported before any I/O.  On the concrete call below both are
supplied and the call succeeds: the source's assertion only rejects the
neither-supplied case, and the reference-raster branch is then taken, so no
error of any kind is raised. -/
theorem both_inputs_accepted_cex :
    (asciiToRaster ⟨⟨2, 2, 0, 0, 1, 0⟩, 2, 2⟩ "a.asc" "o.tif" 1
        (some "r.tif") (some 4326)).2
      = Except.ok (AsciiResult.fromRef "o.tif" 2 2 GdalDType.float32)
    ∧ ∀ err : PyError,
        (asciiToRaster ⟨⟨2, 2, 0, 0, 1, 0⟩, 2, 2⟩ "a.asc" "o.tif" 1
            (some "r.tif") (some 4326)).2 ≠ Except.error err := by
  refine ⟨rfl, ?_⟩
  intro err h
  rw [show (asciiToRaster ⟨⟨2, 2, 0, 0, 1, 0⟩, 2, 2⟩ "a.asc" "o.tif" 1
      (some "r.tif") (some 4326)).2
      = Except.ok (AsciiResult.fromRef "o.tif" 2 2 GdalDType.float32) from rfl] at h
  exact Except.noConfusion h

/-- Claim C2, amended: supplying neither a reference raster nor an EPSG id
to `Convert.asciiToRaster` is a contract violation reported before any I/O
(in particular before the ASCII file is read: the event trace is empty);
supplying both is accepted, the reference-raster branch is used and the EPSG
id is ignored (the call behaves exactly as if only the reference raster had
been supplied). -/
theorem neither_rejected_before_io_both_accepted (env : AsciiEnv)
    (ascii_file save_path : String) (pixel_type : Int) (rf : String) (e : Int)
    (h : hasExt ascii_file (".asc") = true) :
    asciiToRaster env ascii_file save_path pixel_type none none
      = ([], Except.error (PyError.assertionError neitherMsg))
    ∧ asciiToRaster env ascii_file save_path pixel_type (some rf) (some e)
      = asciiToRaster env ascii_file save_path pixel_type (some rf) none := by
  constructor
  · simp [asciiToRaster, h]
  · simp [asciiToRaster, h]

/-- Claim C2, witness for the amended theorem. -/
theorem neither_rejected_before_io_both_accepted_witness :
    asciiToRaster ⟨⟨2, 2, 0, 0, 1, 0⟩, 2, 2⟩ "a.asc" "o.tif" 1 none none
      = ([], Except.error (PyError.assertionError neitherMsg))
    ∧ asciiToRaster ⟨⟨2, 2, 0, 0, 1, 0⟩, 2, 2⟩ "a.asc" "o.tif" 1
        (some "r.tif") (some 4326)
      = asciiToRaster ⟨⟨2, 2, 0, 0, 1, 0⟩, 2, 2⟩ "a.asc" "o.tif" 1
        (some "r.tif") none :=
  neither_rejected_before_io_both_accepted ⟨⟨2, 2, 0, 0, 1, 0⟩, 2, 2⟩
    "a.asc" "o.tif" 1 "r.tif" 4326 (by decide)

/-! Helper lemmas for the table-shape claims. -/

theorem zip_replicate_filter_length (band : List ℚ) (q : ℚ) :
    (((band.zip (List.replicate band.length q)).filter
        (fun p => decide (p.2 = q))).map Prod.fst).length = band.length := by
  induction band with
  | nil => rfl
  | cons a t ih =>
    simpa [List.replicate_succ] using ih

theorem transposeLists_ones_length (arr : List (List ℚ)) :
    (transposeLists (getPixels arr (List.replicate arr.headI.length 1) 1)).length
      = arr.headI.length := by
  cases arr with
  | nil => rfl
  | cons band rest =>
    show (transposeLists (getPixels (band :: rest)
        (List.replicate band.length 1) 1)).length = band.length
    unfold transposeLists
    rw [List.length_map, List.length_range]
    show (((band.zip (List.replicate band.length 1)).filter
        (fun p => decide (p.2 = 1))).map Prod.fst).length = band.length
    exact zip_replicate_filter_length band 1

/-- Claim C3, counterexample.  The claim states that the unmasked table has
r times c times b rows.  For a concrete raster with 2 rows, 3 columns and 2
bands (one tile, bands spatially flattened to 6 cells each), the table has 6
rows — one per pixel, not one per pixel per band — while the claim demands
2 * 3 * 2 = 12. -/
theorem nomask_rowcount_cex :
    (rasterToDataframeNoMask ["B1", "B2"]
        [[[1, 2, 3, 4, 5, 6], [7, 8, 9, 10, 11, 12]]]).rows.length = 6
    ∧ ¬ ((rasterToDataframeNoMask ["B1", "B2"]
        [[[1, 2, 3, 4, 5, 6], [7, 8, 9, 10, 11, 12]]]).rows.length
          = 2 * 3 * 2) := by
  constructor
  · rfl
  · intro h
    rw [show (rasterToDataframeNoMask ["B1", "B2"]
        [[[1, 2, 3, 4, 5, 6], [7, 8, 9, 10, 11, 12]]]).rows.length = 6 from rfl] at h
    exact absurd h (by decide)

/-- Claim C3, amended: for a raster with r rows, c columns and b bands
(tiled into band-major tiles whose cell counts sum to r * c, each band name
naming one band), the unmasked table has r * c rows — one row per pixel,
carrying all band values — and b columns.  The claimed row count
r * c * b holds only in the single-band case. -/
theorem nomask_table_shape (band_names : List String)
    (tiles : List (List (List ℚ))) (r c b : Nat)
    (hb : band_names.length = b)
    (ht : (tiles.map (fun arr => arr.headI.length)).sum = r * c) :
    (rasterToDataframeNoMask band_names tiles).rows.length = r * c
    ∧ (rasterToDataframeNoMask band_names tiles).cols.length = b := by
  constructor
  · have key : ∀ ts : List (List (List ℚ)),
        (rasterToDataframeNoMask band_names ts).rows.length
          = (ts.map (fun arr => arr.headI.length)).sum := by
      intro ts
      induction ts with
      | nil => rfl
      | cons arr rest ih =>
        simp only [rasterToDataframeNoMask, concatDfs, List.map_cons,
          List.flatMap_cons, List.length_append, List.map_cons, List.sum_cons]
        simp only [rasterToDataframeNoMask, concatDfs] at ih
        rw [ih]
        simp only [List.length_map, transposeLists_ones_length]
    rw [key, ht]
  · rw [show (rasterToDataframeNoMask band_names tiles).cols = band_names from rfl, hb]

/-- Claim C3, witness for the amended theorem. -/
theorem nomask_table_shape_witness :
    (rasterToDataframeNoMask ["B1"] [[[1, 2]]]).rows.length = 1 * 2
    ∧ (rasterToDataframeNoMask ["B1"] [[[1, 2]]]).cols.length = 1 :=
  nomask_table_shape ["B1"] [[[1, 2]]] 1 2 1 rfl (by decide)

/-- Claim C4, counterexample.  The claim states that an integer pixel-type
code outside 1..6 is a usage error detected before any I/O.  On the concrete
EPSG-branch call below with code 7, the ASCII file IS read (the event trace
is nonempty, holding the readASCII event) and the failure is an
unbound-local error on the unassigned output handle `dst`, raised only
after that I/O. -/
theorem bad_pixel_type_after_io_cex :
    asciiToRaster ⟨⟨2, 2, 0, 0, 1, 0⟩, 2, 2⟩ "a.asc" "o.tif" 7 none (some 4326)
      = ([IOEvent.readASCII "a.asc"],
         Except.error (PyError.unboundLocalError "dst"))
    ∧ (asciiToRaster ⟨⟨2, 2, 0, 0, 1, 0⟩, 2, 2⟩ "a.asc" "o.tif" 7 none
        (some 4326)).1 ≠ [] := by
  refine ⟨rfl, ?_⟩
  intro h
  rw [show (asciiToRaster ⟨⟨2, 2, 0, 0, 1, 0⟩, 2, 2⟩ "a.asc" "o.tif" 7 none
      (some 4326)).1 = [IOEvent.readASCII "a.asc"] from rfl] at h
  exact List.noConfusion h

/-- Claim C4, amended: an integer pixel-type code outside the enumeration
1..6 is not rejected before I/O — on the EPSG branch the ASCII file is read
first and the call then fails with an unbound-local error on the output
handle; for every code inside 1..6 the created raster's datatype matches the
declared mapping exactly (1 float32, 2 float64, 3 uint16, 4 uint32,
5 int16, 6 int32). -/
theorem pixel_type_mapping_and_late_failure (env : AsciiEnv)
    (af sp : String) (pt : Int) (e : Int)
    (h : hasExt af (".asc") = true) :
    (pixelTypeToDType pt = none →
      asciiToRaster env af sp pt none (some e)
        = ([IOEvent.readASCII af],
           Except.error (PyError.unboundLocalError "dst")))
    ∧ (∀ dt, pixelTypeToDType pt = some dt →
      (asciiToRaster env af sp pt none (some e)).2
        = Except.ok (AsciiResult.fromEpsg
            ⟨sp, env.ascii.cols, env.ascii.rows, dt,
             ⟨env.ascii.xll, env.ascii.cellsize, 0,
              env.ascii.yll + (env.ascii.rows : ℚ) * env.ascii.cellsize, 0,
              (-1 : ℚ) * env.ascii.cellsize⟩, e⟩))
    ∧ pixelTypeToDType 1 = some GdalDType.float32
    ∧ pixelTypeToDType 2 = some GdalDType.float64
    ∧ pixelTypeToDType 3 = some GdalDType.uint16
    ∧ pixelTypeToDType 4 = some GdalDType.uint32
    ∧ pixelTypeToDType 5 = some GdalDType.int16
    ∧ pixelTypeToDType 6 = some GdalDType.int32
    ∧ (∀ p : Int, ¬ (1 ≤ p ∧ p ≤ 6) → pixelTypeToDType p = none) := by
  refine ⟨?_, ?_, rfl, rfl, rfl, rfl, rfl, rfl, ?_⟩
  · intro hnone
    simp [asciiToRaster, h, hnone]
  · intro dt hdt
    simp [asciiToRaster, h, hdt]
  · intro p hp
    unfold pixelTypeToDType
    split
    · omega
    · split
      · omega
      · split
        · omega
        · split
          · omega
          · split
            · omega
            · split
              · omega
              · rfl

/-- Claim C4, witness for the amended theorem. -/
theorem pixel_type_mapping_and_late_failure_witness :
    asciiToRaster ⟨⟨2, 3, 5, 7, 2, 9⟩, 4, 4⟩ "a.asc" "o.tif" 7 none (some 4326)
      = ([IOEvent.readASCII "a.asc"],
         Except.error (PyError.unboundLocalError "dst")) :=
  (pixel_type_mapping_and_late_failure ⟨⟨2, 3, 5, 7, 2, 9⟩, 4, 4⟩ "a.asc"
    "o.tif" 7 4326 (by decide)).1 (by decide)

/-- Claim C5, counterexample.  The claim states that whenever the caller
supplies no prefix, the prefix defaults to the input filename's part before
the first separator.  On the concrete single-time-step call below with no
prefix, the output is named from the literal rendering of Python None — not
from the filename part before the separator. -/
theorem single_layer_no_prefix_cex :
    nctoTiff "precipitation_1979.nc" "out" "_" none [⟨1979, 1, 1, 0, 0, 0⟩]
      = ["out/None.tif"]
    ∧ nctoTiff "precipitation_1979.nc" "out" "_" none [⟨1979, 1, 1, 0, 0, 0⟩]
      ≠ ["out/precipitation.tif"] := by
  constructor
  · decide
  · decide

/-- Claim C5, amended: with a single time step and a caller-supplied prefix,
exactly one output named prefix.tif is produced; with a single time step and
no prefix the output is literally named None.tif (the filename-derived
default is NOT applied); with K greater than 1 time steps, exactly K outputs
are produced, each timestamp-named, and only there does a missing prefix
default to the input filename's part before the first separator. -/
theorem nctoTiff_output_names (input_nc save_to sep p : String)
    (t : PyDateTime) (times : List PyDateTime) (hK : 1 < times.length) :
    nctoTiff input_nc save_to sep (some p) [t]
      = [save_to ++ "/" ++ p ++ ".tif"]
    ∧ nctoTiff input_nc save_to sep none [t]
      = [save_to ++ "/" ++ "None" ++ ".tif"]
    ∧ nctoTiff input_nc save_to sep (some p) times
      = times.map (fun u =>
          save_to ++ "/" ++ p ++ "_" ++ timestampName u ++ ".tif")
    ∧ (nctoTiff input_nc save_to sep (some p) times).length = times.length
    ∧ nctoTiff input_nc save_to sep none times
      = times.map (fun u =>
          save_to ++ "/" ++ ((splitextFst (basename input_nc)).splitOn sep).headI
            ++ "_" ++ timestampName u ++ ".tif") := by
  refine ⟨?_, ?_, ?_, ?_, ?_⟩
  · simp [nctoTiff, pyStr]
  · simp [nctoTiff, pyStr]
  · simp [nctoTiff, pyStr, hK]
  · simp [nctoTiff]
  · simp [nctoTiff, pyStr, hK]

/-- Claim C5, witness for the amended theorem. -/
theorem nctoTiff_output_names_witness :
    nctoTiff "precipitation_1979.nc" "out" "_" (some "pre")
        [⟨1979, 1, 1, 0, 0, 0⟩]
      = ["out" ++ "/" ++ "pre" ++ ".tif"] :=
  (nctoTiff_output_names "precipitation_1979.nc" "out" "_" "pre"
    ⟨1979, 1, 1, 0, 0, 0⟩ [⟨1979, 1, 1, 0, 0, 0⟩, ⟨1979, 1, 2, 0, 0, 0⟩]
    (by decide)).1

/-- Claim C6, confirmed: when the raster's EPSG id differs from the
vector's, `Convert.rasterize` always fails with a ValueError whose message
names the two mismatched ids, after only the two open events — before the
output driver is created and before the burn step — and performs no
reprojection (no further event of any kind). -/
theorem rasterize_epsg_mismatch_fails_before_burn (env : RasterizeEnv)
    (raster_path vector_path out_path : String) (vector_field : Option String)
    (h : env.srcEpsg ≠ env.dsEpsg) :
    rasterize env raster_path vector_path out_path vector_field
      = ([RastEvent.openRaster raster_path, RastEvent.openVector vector_path],
         Except.error (PyError.valueError
           (epsgMismatchMsg env.srcEpsg env.dsEpsg)))
    ∧ (∀ p, RastEvent.createDriver p
        ∉ (rasterize env raster_path vector_path out_path vector_field).1)
    ∧ (∀ bv a, RastEvent.burn bv a
        ∉ (rasterize env raster_path vector_path out_path vector_field).1) := by
  have heq : rasterize env raster_path vector_path out_path vector_field
      = ([RastEvent.openRaster raster_path, RastEvent.openVector vector_path],
         Except.error (PyError.valueError
           (epsgMismatchMsg env.srcEpsg env.dsEpsg))) := by
    simp [rasterize, h]
  refine ⟨heq, ?_, ?_⟩
  · intro p
    rw [heq]
    simp
  · intro bv a
    rw [heq]
    simp

/-- Claim C6, witness. -/
theorem rasterize_epsg_mismatch_witness :
    rasterize ⟨4326, 3857⟩ "r.tif" "v.geojson" "o.tif" none
      = ([RastEvent.openRaster "r.tif", RastEvent.openVector "v.geojson"],
         Except.error (PyError.valueError (epsgMismatchMsg 4326 3857))) :=
  (rasterize_epsg_mismatch_fails_before_burn ⟨4326, 3857⟩ "r.tif" "v.geojson"
    "o.tif" none (by decide)).1

/-- Claim C8, confirmed: with a reference raster, when the ASCII grid's
row/column counts differ from the reference's, `Convert.asciiToRaster`
fails with the dimension-mismatch assertion after only the two read events —
no write event appears in the trace, so no output file is written; when the
counts match, the output raster's row and column counts equal the
reference's.  (`Raster.rasterLike`, which performs the matching-case write,
is not under src/ and is modelled from the spec as copying the reference's
spatial grid.) -/
theorem ascii_ref_dimension_check (env : AsciiEnv) (af sp rf : String)
    (pt : Int)
    (h1 : hasExt af (".asc") = true) (h2 : hasExt rf (".tif") = true) :
    (¬ (env.ascii.rows = env.refRows ∧ env.ascii.cols = env.refCols) →
      asciiToRaster env af sp pt (some rf) none
        = ([IOEvent.readASCII af, IOEvent.openRaster rf],
           Except.error (PyError.assertionError dimMismatchMsg))
      ∧ ∀ ev ∈ (asciiToRaster env af sp pt (some rf) none).1,
          ev.isWrite = false)
    ∧ (∀ dt, pixelTypeToDType pt = some dt →
        env.ascii.rows = env.refRows → env.ascii.cols = env.refCols →
        (asciiToRaster env af sp pt (some rf) none).2
          = Except.ok (AsciiResult.fromRef sp env.refRows env.refCols dt)) := by
  constructor
  · intro hmm
    have heq : asciiToRaster env af sp pt (some rf) none
        = ([IOEvent.readASCII af, IOEvent.openRaster rf],
           Except.error (PyError.assertionError dimMismatchMsg)) := by
      simp [asciiToRaster, h1, h2, hmm]
    refine ⟨heq, ?_⟩
    rw [heq]
    intro ev hev
    simp only [List.mem_cons, List.not_mem_nil, or_false] at hev
    rcases hev with h | h
    · rw [h]
      rfl
    · rw [h]
      rfl
  · intro dt hdt hr hc
    simp [asciiToRaster, h1, h2, hr, hc, hdt]

/-- Claim C8, witness (a 2-row ASCII grid against a 2-by-2 reference with a
column-count mismatch). -/
theorem ascii_ref_dimension_check_witness :
    asciiToRaster ⟨⟨2, 3, 0, 0, 1, 0⟩, 2, 2⟩ "a.asc" "o.tif" 1
        (some "r.tif") none
      = ([IOEvent.readASCII "a.asc", IOEvent.openRaster "r.tif"],
         Except.error (PyError.assertionError dimMismatchMsg)) :=
  ((ascii_ref_dimension_check ⟨⟨2, 3, 0, 0, 1, 0⟩, 2, 2⟩ "a.asc" "o.tif"
    "r.tif" 1 (by decide) (by decide)).1 (by decide)).1

/-- Claim C9, confirmed: on the EPSG branch the created raster's
geotransform has upper-left Y equal to yllcorner plus nrows times cellsize,
row-direction pixel size equal to the negation of cellsize, upper-left X
equal to xllcorner, and column-direction pixel size equal to cellsize. -/
theorem ascii_epsg_geotransform (env : AsciiEnv) (af sp : String) (pt : Int)
    (e : Int) (dt : GdalDType)
    (h1 : hasExt af (".asc") = true) (h2 : pixelTypeToDType pt = some dt) :
    ∃ c : CreatedRaster,
      (asciiToRaster env af sp pt none (some e)).2
          = Except.ok (AsciiResult.fromEpsg c)
      ∧ c.gt.originY = env.ascii.yll + (env.ascii.rows : ℚ) * env.ascii.cellsize
      ∧ c.gt.pixelHeight = -env.ascii.cellsize
      ∧ c.gt.originX = env.ascii.xll
      ∧ c.gt.pixelWidth = env.ascii.cellsize := by
  refine ⟨⟨sp, env.ascii.cols, env.ascii.rows, dt,
    ⟨env.ascii.xll, env.ascii.cellsize, 0,
     env.ascii.yll + (env.ascii.rows : ℚ) * env.ascii.cellsize, 0,
     (-1 : ℚ) * env.ascii.cellsize⟩, e⟩, ?_, rfl, ?_, rfl, rfl⟩
  · simp [asciiToRaster, h1, h2]
  · show (-1 : ℚ) * env.ascii.cellsize = -env.ascii.cellsize
    ring

/-- Claim C9, witness (rows 3, cell size 2, lower-left corner (10, 20):
upper-left Y is 26, row-direction pixel size is -2). -/
theorem ascii_epsg_geotransform_witness :
    ∃ c : CreatedRaster,
      (asciiToRaster ⟨⟨3, 4, 10, 20, 2, -9⟩, 0, 0⟩ "a.asc" "o.tif" 1 none
          (some 4326)).2 = Except.ok (AsciiResult.fromEpsg c)
      ∧ c.gt.originY = 26
      ∧ c.gt.pixelHeight = -2
      ∧ c.gt.originX = 10
      ∧ c.gt.pixelWidth = 2 := by
  obtain ⟨c, hc, hy, hh, hx, hw⟩ := ascii_epsg_geotransform
    ⟨⟨3, 4, 10, 20, 2, -9⟩, 0, 0⟩ "a.asc" "o.tif" 1 4326 GdalDType.float32
    (by decide) (by decide)
  refine ⟨c, hc, ?_, ?_, ?_, ?_⟩
  · rw [hy]
    norm_num
  · rw [hh]
  · rw [hx]
  · rw [hw]

/-- Claim C10, confirmed: `Convert.asciiFoldertoRaster` invokes the per-file
conversion with `raster_file=None` regardless of the `Rraster_file` argument
(the call is extensionally identical to the call with no reference raster),
so a caller supplying only a reference raster and no EPSG id gets the
neither-input contract violation on the first file of the folder. -/
theorem folder_ignores_raster_file (env : FolderEnv) (path sp : String)
    (pt : Int) (rf : Option String) (e : Option Int)
    (f : String) (rest : List String)
    (hex : env.pathExists = true)
    (hfiles : env.files.erase ("desktop.ini") = f :: rest)
    (hall : (f :: rest).all (fun x => hasExt x (".asc")) = true) :
    asciiFoldertoRaster env path sp pt rf e
      = asciiFoldertoRaster env path sp pt none e
    ∧ asciiFoldertoRaster env path sp pt rf none
      = Except.error (PyError.assertionError neitherMsg) := by
  constructor
  · rfl
  · have hf : hasExt f (".asc") = true := by
      have hmem : f ∈ f :: rest := List.mem_cons_self f rest
      exact List.all_eq_true.mp hall f hmem
    have hpf : hasExt (path ++ "/" ++ f) (".asc") = true :=
      hasExt_append (path ++ "/") f (".asc") hf
    simp [asciiFoldertoRaster, hex, hfiles, hall, runFolderLoop,
      asciiToRaster, hpf]

/-- Claim C10, witness. -/
theorem folder_ignores_raster_file_witness :
    asciiFoldertoRaster ⟨true, ["a.asc"], fun _ => ⟨⟨2, 2, 0, 0, 1, 0⟩, 2, 2⟩⟩
        "p" "s" 1 (some "ref.tif") none
      = Except.error (PyError.assertionError neitherMsg) :=
  (folder_ignores_raster_file
    ⟨true, ["a.asc"], fun _ => ⟨⟨2, 2, 0, 0, 1, 0⟩, 2, 2⟩⟩
    "p" "s" 1 (some "ref.tif") none "a.asc" [] rfl (by decide) (by decide)).2

/-- Claim C7, confirmed: in the masked extraction path, the burn values
assigned to the N mask features are exactly the dense integer set 1..N
(0 is never assigned), every row of the returned table was extracted for a
burn value in that set — so no output row carries burn value 0 — and the
returned table contains neither a burn-value column nor a geometry column
(both are dropped, wherever they occur). -/
theorem masked_burn_values_dense_cols_dropped
    (band_names attrCols : List String) (attrRows : List (List ℚ))
    (mask_arr : List ℚ) (tiles : List (List (List ℚ))) :
    (∀ v : Nat, v ∈ assignedBurnValues attrRows.length
        ↔ 1 ≤ v ∧ v ≤ attrRows.length)
    ∧ 0 ∉ assignedBurnValues attrRows.length
    ∧ ∃ df : DataFrame,
        (rasterToDataframeMasked band_names attrCols attrRows mask_arr tiles
            false).2 = Except.ok df
        ∧ (∀ row ∈ df.rows, row.burn ∈ assignedBurnValues attrRows.length)
        ∧ "burn_value" ∉ df.cols
        ∧ "geometry" ∉ df.cols := by
  refine ⟨?_, ?_, ⟨_, rfl, ?_, ?_, ?_⟩⟩
  · intro v
    unfold assignedBurnValues
    rw [List.mem_range'_1]
    omega
  · unfold assignedBurnValues
    rw [List.mem_range'_1]
    omega
  · intro row hrow
    simp only [dropCols, concatDfs, mergeLeft, List.mem_map,
      List.mem_flatMap] at hrow
    obtain ⟨r0, ⟨tdf, ⟨arr, harr, htdf⟩, hr0⟩, hroweq⟩ := hrow
    subst htdf
    simp only [List.mem_map, List.mem_flatMap] at hr0
    obtain ⟨r1, ⟨mdf, ⟨v, hv, hmdf⟩, hr1⟩, hr1eq⟩ := hr0
    subst hmdf
    simp only [List.mem_map] at hr1
    obtain ⟨px, hpx, hpxeq⟩ := hr1
    have hb : row.burn = v := by
      rw [← hroweq, ← hr1eq, ← hpxeq]
    rw [hb]
    exact hv
  · intro hmem
    simp only [dropCols] at hmem
    have hp := List.of_mem_filter hmem
    simp at hp
  · intro hmem
    simp only [dropCols] at hmem
    have hp := List.of_mem_filter hmem
    simp at hp

end Pyramids
